import Mathlib

/-!
Shallow embedding of the message-dispatch core of the `rrg` agent
(`src/session/mod.rs` and `src/comms/request.rs`), together with theorems
checking the specification's claims about it.

Wire envelopes are modelled by `GrrMessage` (only the fields this layer
touches; the remaining protobuf fields are set by `..Default::default()` in
the source and never read here).  Bytes are `List Nat`.  The protobuf
encoders and decoders produced by code generation are not part of the
sources, so they are kept abstract: a value of a response type is
represented by the outcome of encoding it, and the `GrrStatus` encoder is a
parameter.  The transport (`message::send`) is modelled by returning the
list of envelopes handed to it, in order.
-/

namespace Rrg

/-- Model of `prost::EncodeError`. -/
structure EncodeError where
  message : String
deriving Repr, DecidableEq

/-- Model of `prost::DecodeError`. -/
structure DecodeError where
  message : String
deriving Repr, DecidableEq

/-- Model of `rrg_proto::grr_message::Type` (only the values this layer uses). -/
inductive GrrMessageType where
  | Message
  | Status
deriving Repr, DecidableEq

/-- Model of `rrg_proto::grr_status::ReturnedStatus` (only the values used). -/
inductive ReturnedStatus where
  | Ok
  | GenericError
deriving Repr, DecidableEq

/-- Model of the `rrg_proto::GrrStatus` payload. -/
structure GrrStatus where
  status : Option ReturnedStatus := none
  error_message : Option String := none
deriving Repr, DecidableEq

/-- Model of the wire envelope `rrg_proto::GrrMessage` (and of the second
generator's `rrg_proto::jobs::GrrMessage`, which carries the same logical
fields): every field is optional and defaults to absent. -/
structure GrrMessage where
  session_id : Option String := none
  request_id : Option Nat := none
  response_id : Option Nat := none
  name : Option String := none
  type : Option GrrMessageType := none
  args_rdf_name : Option String := none
  args : Option (List Nat) := none
deriving Repr, DecidableEq

/-- Modelled from the spec and from uses in `session/mod.rs`: the type
`session::ParseError` is declared in `src/session/error.rs`, which is not
among the provided sources.  `Demand::try_from` builds it with
`MissingField("session id" | "request id" | "action name")`, and
`Payload::parse` converts a `prost::DecodeError` into it with `?`, matching
the spec's decoding failure taxonomy. -/
inductive ParseError where
  | MissingField (what : String)
  | Decode (err : DecodeError)
deriving Repr, DecidableEq

/-- Modelled from the spec and from uses in `session/mod.rs`: the type
`session::Error` is declared in the absent `src/session/error.rs`.  The code
needs its `Display` output (`error.to_string()` in `Status::try_into`) and a
conversion from `prost::EncodeError` (the `?` in `Response::send`), so it is
represented by its human-readable message. -/
structure Error where
  message : String
deriving Repr, DecidableEq

/-- Model of `Display`/`to_string()` for `session::Error`. -/
def Error.toString (e : Error) : String := e.message

/-- Model of `From<prost::EncodeError> for session::Error`. -/
def Error.ofEncodeError (e : EncodeError) : Error := { message := e.message }

/-- Model of `session::Header`. -/
structure Header where
  session_id : String
  request_id : Nat
deriving Repr, DecidableEq

/-- Model of `session::Payload` (type-erased optional argument bytes). -/
structure Payload where
  bytes : Option (List Nat)
deriving Repr, DecidableEq

/-- Model of `session::Demand`. -/
structure Demand where
  action : String
  header : Header
  payload : Payload
deriving Repr, DecidableEq

/-- Model of `impl TryFrom<rrg_proto::GrrMessage> for Demand`: the header
fields are demanded first (session id, then request id), then the action
name; the argument bytes are passed through untouched. -/
def Demand.tryFrom (message : GrrMessage) : Except ParseError Demand :=
  match message.session_id with
  | none => Except.error (ParseError.MissingField ("session id"))
  | some sid =>
    match message.request_id with
    | none => Except.error (ParseError.MissingField ("request id"))
    | some rid =>
      match message.name with
      | none => Except.error (ParseError.MissingField ("action name"))
      | some nm =>
        Except.ok { action := nm,
                    header := { session_id := sid, request_id := rid },
                    payload := { bytes := message.args } }

/-- Model of `comms::RequestId`. -/
structure RequestId where
  session_id : String
  request_id : Nat
deriving Repr, DecidableEq

/-- Model of `comms::Request`. -/
structure Request where
  id : RequestId
  action : String
  serialized_args : Option (List Nat)
deriving Repr, DecidableEq

/-- Model of `comms::ParseRequestErrorKind`. -/
inductive ParseRequestErrorKind where
  | NoSessionId
  | NoRequestId
  | NoActionName
deriving Repr, DecidableEq

/-- Model of `comms::ParseRequestError`. -/
structure ParseRequestError where
  kind : ParseRequestErrorKind
deriving Repr, DecidableEq

/-- Model of `ParseRequestErrorKind::as_str`. -/
def ParseRequestErrorKind.as_str : ParseRequestErrorKind → String
  | ParseRequestErrorKind.NoSessionId => "no session id in the action request"
  | ParseRequestErrorKind.NoRequestId => "no request id in the action request"
  | ParseRequestErrorKind.NoActionName => "no action name in the action request"

/-- Model of `impl TryFrom<rrg_proto::jobs::GrrMessage> for Request`: the
protobuf `has_x` checks become `isSome` tests and the `take_x`/`get_x`
getters become `getD` with the protobuf default, run in the source's order
(session id, request id, action name); `args` is kept only when present. -/
def Request.tryFrom (proto : GrrMessage) : Except ParseRequestError Request :=
  if proto.session_id.isNone then
    Except.error { kind := ParseRequestErrorKind.NoSessionId }
  else if proto.request_id.isNone then
    Except.error { kind := ParseRequestErrorKind.NoRequestId }
  else if proto.name.isNone then
    Except.error { kind := ParseRequestErrorKind.NoActionName }
  else
    Except.ok { id := { session_id := proto.session_id.getD (""),
                        request_id := proto.request_id.getD 0 },
                action := proto.name.getD (""),
                serialized_args := proto.args }

/-- Shallow model of a type implementing the `action::Request` trait: its
protobuf decoder (generated code, kept abstract), the protobuf form's
default value, and the trait's `from_proto` conversion. -/
structure RequestType (π ρ : Type) where
  decodeBytes : List Nat → Except DecodeError π
  dfault : π
  from_proto : π → ρ

/-- Model of `Payload::parse`: present bytes are decoded (a decode failure is
converted into a `ParseError` by the `?`); absent bytes yield the default
protobuf value; either way the result goes through `from_proto`. -/
def Payload.parse {π ρ : Type} (T : RequestType π ρ) (p : Payload) :
    Except ParseError ρ :=
  match p.bytes with
  | some bs =>
    match T.decodeBytes bs with
    | Except.error e => Except.error (ParseError.Decode e)
    | Except.ok proto => Except.ok (T.from_proto proto)
  | none => Except.ok (T.from_proto T.dfault)

/-- Shallow model of a value of a type implementing `action::Response`: the
source encodes `self.into_proto()` with prost (generated code, kept
abstract), so the value is represented by its encoding outcome, together
with the type's `RDF_NAME` constant. -/
structure ActionResponse where
  encodeProto : Except EncodeError (List Nat)
  rdfName : Option String

/-- Model of the private `session::Response` struct. -/
structure Response where
  session_id : String
  request_id : Option Nat
  response_id : Option Nat
  data : ActionResponse

/-- Model of `impl TryInto<rrg_proto::GrrMessage> for Response`: encode the
data, then build an envelope carrying the response's ids, the `Message` type
tag, the data's RDF name and the encoded bytes. -/
def Response.tryInto (r : Response) : Except EncodeError GrrMessage :=
  match r.data.encodeProto with
  | Except.error e => Except.error e
  | Except.ok data =>
    Except.ok { session_id := some r.session_id,
                response_id := r.response_id,
                request_id := r.request_id,
                type := some GrrMessageType.Message,
                args_rdf_name := r.data.rdfName,
                args := some data }

/-- Model of `Response::send`: encode with `try_into` (propagating the error
through the `From` conversion) and hand the envelope to `message::send`; the
transport is modelled by the returned list of envelopes. -/
def Response.send (r : Response) : Except Error Unit × List GrrMessage :=
  match r.tryInto with
  | Except.error e => (Except.error (Error.ofEncodeError e), [])
  | Except.ok msg => (Except.ok (), [msg])

/-- Model of `session::Sink`. -/
structure Sink where
  id : String
deriving Repr, DecidableEq

/-- Model of the `STARTUP` sink constant. -/
def STARTUP : Sink := { id := "/flows/F:Startup" }

/-- Model of `Sink::wrap`: a sink-addressed response with no request or
response id. -/
def Sink.wrap (sink : Sink) (response : ActionResponse) : Response :=
  { session_id := sink.id,
    request_id := none,
    response_id := none,
    data := response }

/-- Model of `Adhoc::reply` (the `Adhoc` struct itself is stateless): the
response is logged and dropped, nothing is sent, and the call returns
`Ok(())`. -/
def Adhoc.reply (_response : ActionResponse) : Except Error Unit × List GrrMessage :=
  (Except.ok (), [])

/-- Model of `Adhoc::send`: wrap the response for the sink and send it. -/
def Adhoc.send (sink : Sink) (response : ActionResponse) :
    Except Error Unit × List GrrMessage :=
  (sink.wrap response).send

/-- Model of the `session::Action` state: the bound header and the private
response counter. -/
structure Action where
  header : Header
  next_response_id : Nat
deriving Repr, DecidableEq

/-- Model of `Action::new`. -/
def Action.new (header : Header) : Action :=
  { header := header, next_response_id := 0 }

/-- Model of `Action::reply`: build a `Response` carrying the bound ids and
the current counter and send it; only when the send succeeds is the counter
incremented (the `?` returns early on failure, leaving the state as it
was). -/
def Action.reply (s : Action) (response : ActionResponse) :
    (Except Error Unit × Action) × List GrrMessage :=
  match Response.send { session_id := s.header.session_id,
                        request_id := some s.header.request_id,
                        response_id := some s.next_response_id,
                        data := response } with
  | (Except.error e, msgs) => ((Except.error e, s), msgs)
  | (Except.ok _, msgs) =>
    ((Except.ok (), { s with next_response_id := s.next_response_id + 1 }), msgs)

/-- Model of `Action::send`: identical to `Adhoc::send`; the session state is
not touched. -/
def Action.send (_s : Action) (sink : Sink) (response : ActionResponse) :
    Except Error Unit × List GrrMessage :=
  (sink.wrap response).send

/-- Model of the private `session::Status` struct. -/
structure Status where
  header : Header
  result : Except Error Unit

/-- The `GrrStatus` payload built inside `Status::try_into` before encoding:
`Ok(())` becomes an `Ok` status with no error message, `Err(error)` becomes a
`GenericError` status carrying `error.to_string()`. -/
def Status.payload (st : Status) : GrrStatus :=
  match st.result with
  | Except.ok _ => { status := some ReturnedStatus.Ok }
  | Except.error error =>
    { status := some ReturnedStatus.GenericError,
      error_message := some error.toString }

/-- Model of `impl TryInto<rrg_proto::GrrMessage> for Status`: encode the
payload with the (abstract, generated) `GrrStatus` encoder `enc`, then build
an envelope that carries the header's session id, the header's request id in
the `response_id` field, the `Status` type tag and the encoded payload; the
`request_id` field is left at its default (absent), exactly as in the
source. -/
def Status.tryInto (enc : GrrStatus → Except EncodeError (List Nat))
    (st : Status) : Except EncodeError GrrMessage :=
  match enc st.payload with
  | Except.error e => Except.error e
  | Except.ok data =>
    Except.ok { session_id := some st.header.session_id,
                response_id := some st.header.request_id,
                type := some GrrMessageType.Status,
                args_rdf_name := some ("GrrStatus"),
                args := some data }

/-- Model of `session::handle`.  The inbound message is represented by the
result of its `TryInto<Demand>` conversion; the external collaborator
`action::dispatch` is a parameter returning its `Result` together with the
final session state and the envelopes it sent through the session.  On a
decode failure nothing is sent; otherwise the collaborator's sends are
followed by the status envelope when it encodes, and by nothing more when it
does not. -/
def handle (enc : GrrStatus → Except EncodeError (List Nat))
    (message : Except ParseError Demand)
    (dispatch : String → Action → Payload →
      Except Error Unit × Action × List GrrMessage) :
    List GrrMessage :=
  match message with
  | Except.error _ => []
  | Except.ok demand =>
    let (result, _session, sent) :=
      dispatch demand.action (Action.new demand.header) demand.payload
    let st : Status := { header := demand.header, result := result }
    match Status.tryInto enc st with
    | Except.error _ => sent
    | Except.ok msg => sent ++ [msg]

/-- Driver used to state the response-sequencing properties: call
`Action.reply` once per list element, threading the session state and
collecting every envelope handed to the transport, in order. -/
def Action.replyAll (s : Action) (rs : List ActionResponse) :
    Action × List GrrMessage :=
  match rs with
  | [] => (s, [])
  | r :: rest =>
    let ((_res, s1), msgs) := Action.reply s r
    let (s2, more) := Action.replyAll s1 rest
    (s2, msgs ++ more)

/-- Concrete `GrrStatus` encoder that always succeeds with empty bytes. -/
def encOkEmpty : GrrStatus → Except EncodeError (List Nat) := fun _ => Except.ok []

/-- Concrete `GrrStatus` encoder that always fails. -/
def encFail : GrrStatus → Except EncodeError (List Nat) :=
  fun _ => Except.error { message := "buffer full" }

/-- Concrete header used by the witnesses, taken from the spec's end-to-end
scenario. -/
def hdr0 : Header := { session_id := "F:123", request_id := 7 }

/-- Concrete response value whose encoding succeeds with empty bytes. -/
def respOk0 : ActionResponse := { encodeProto := Except.ok [], rdfName := some ("StatEntry") }

/-- Second concrete response value whose encoding succeeds. -/
def respOk1 : ActionResponse := { encodeProto := Except.ok [1, 2], rdfName := none }

/-- Concrete response value whose encoding fails. -/
def respBad0 : ActionResponse :=
  { encodeProto := Except.error { message := "encode failed" }, rdfName := none }

/-- The envelope `Status.tryInto encOkEmpty` produces for `hdr0` with result
`Ok(())`. -/
def statusMsg0 : GrrMessage :=
  { session_id := some ("F:123"),
    response_id := some 7,
    type := some GrrMessageType.Status,
    args_rdf_name := some ("GrrStatus"),
    args := some [] }

/-- Concrete request-bound `Response` value. -/
def resp0 : Response :=
  { session_id := "F:123", request_id := some 7, response_id := some 0, data := respOk0 }

/-- The envelope `Response.tryInto` produces for `resp0`. -/
def msgResp0 : GrrMessage :=
  { session_id := some ("F:123"),
    request_id := some 7,
    response_id := some 0,
    type := some GrrMessageType.Message,
    args_rdf_name := some ("StatEntry"),
    args := some [] }

/-- The envelope produced by sending `respOk0` to the `STARTUP` sink. -/
def msgSink0 : GrrMessage :=
  { session_id := some ("/flows/F:Startup"),
    type := some GrrMessageType.Message,
    args_rdf_name := some ("StatEntry"),
    args := some [] }

/-- Concrete demand used by the `handle` witnesses. -/
def demand0 : Demand :=
  { action := "ListDir", header := hdr0, payload := { bytes := none } }

/-- Concrete action collaborator that replies nothing and succeeds. -/
def dispatch0 : String → Action → Payload → Except Error Unit × Action × List GrrMessage :=
  fun _ s _ => (Except.ok (), s, [])

/-- Concrete envelope with all identity fields present. -/
def envFull : GrrMessage :=
  { session_id := some ("F:123"), request_id := some 7, name := some ("ListDir") }

/-- Concrete envelope missing only the session id. -/
def envNoSession : GrrMessage := { request_id := some 7, name := some ("ListDir") }

/-- Concrete envelope missing only the request id. -/
def envNoRequest : GrrMessage := { session_id := some ("F:123"), name := some ("ListDir") }

/-- Concrete envelope missing only the action name. -/
def envNoName : GrrMessage := { session_id := some ("F:123"), request_id := some 7 }

/-- Concrete instance of an action request type, used by the witnesses. -/
def reqType0 : RequestType Nat Nat :=
  { decodeBytes := fun _ => Except.ok 0, dfault := 0, from_proto := fun n => n }

/-- C6: an inbound message that fails to decode into a `Demand` makes
`handle` send nothing to the transport: no response and no status envelope
is produced for that message. -/
theorem handle_undecodable_sends_nothing
    (enc : GrrStatus → Except EncodeError (List Nat)) (e : ParseError)
    (dispatch : String → Action → Payload →
      Except Error Unit × Action × List GrrMessage) :
    handle enc (Except.error e) dispatch = [] := rfl

/-- C7: `Adhoc::reply` sends no envelope to the transport and returns
success (the response is merely logged and dropped); being a total Lean
function, it cannot panic. -/
theorem adhoc_reply_no_send (r : ActionResponse) :
    Adhoc.reply r = (Except.ok (), []) := rfl

/-- C10: when a `reply` on an `Action` session fails (its response fails to
encode), the session state — in particular `next_response_id` — is left
unchanged, so the next successful reply will carry the id the failed one
would have carried. -/
theorem reply_failure_preserves_counter (s : Action) (r : ActionResponse)
    (e : Error) (h : (Action.reply s r).1.1 = Except.error e) :
    (Action.reply s r).1.2 = s := by
  cases hr : r.encodeProto with
  | error err => simp [Action.reply, Response.send, Response.tryInto, hr]
  | ok bs => simp [Action.reply, Response.send, Response.tryInto, hr] at h

/-- Witness for C10 at a concrete failing response. -/
theorem reply_failure_preserves_counter_witness :
    (Action.reply (Action.new hdr0) respBad0).1.1 =
      Except.error { message := "encode failed" } ∧
    (Action.reply (Action.new hdr0) respBad0).1.2 = Action.new hdr0 :=
  ⟨rfl, reply_failure_preserves_counter (Action.new hdr0) respBad0
    { message := "encode failed" } rfl⟩

/-- C1 as stated is false on the code: for the dispatched request with
header `(session_id "F:123", request_id 7)`, the encoded status envelope
does not carry `7` in its `request_id` field (that field is absent) and its
`response_id` field is not absent (it carries `7`). -/
theorem status_envelope_request_id_claim_false :
    ¬ (∀ msg : GrrMessage,
        Status.tryInto encOkEmpty { header := hdr0, result := Except.ok () } =
          Except.ok msg →
        msg.session_id = some ("F:123") ∧ msg.request_id = some 7 ∧
          msg.response_id = none) := by
  intro hclaim
  have h := hclaim statusMsg0 rfl
  exact absurd h.2.1 (by decide)

/-- C1 amended: for every dispatched request with header
`(session_id s, request_id r)`, the encoded status envelope carries `s` in
its `session_id` field and `r` in its `response_id` field, and its
`request_id` field is absent. -/
theorem status_envelope_identity_fields (hdr : Header) (res : Except Error Unit)
    (enc : GrrStatus → Except EncodeError (List Nat)) (msg : GrrMessage)
    (h : Status.tryInto enc { header := hdr, result := res } = Except.ok msg) :
    msg.session_id = some hdr.session_id ∧
    msg.response_id = some hdr.request_id ∧
    msg.request_id = none := by
  simp only [Status.tryInto] at h
  cases henc : enc (Status.payload { header := hdr, result := res }) with
  | error e => rw [henc] at h; exact absurd h (by simp)
  | ok data =>
    rw [henc] at h
    injection h with h
    subst h
    exact ⟨rfl, rfl, rfl⟩

/-- Witness for the amended C1 at a concrete header and encoder. -/
theorem status_envelope_identity_fields_witness :
    statusMsg0.session_id = some hdr0.session_id ∧
    statusMsg0.response_id = some hdr0.request_id ∧
    statusMsg0.request_id = none :=
  status_envelope_identity_fields hdr0 (Except.ok ()) encOkEmpty statusMsg0 rfl

/-- C9: when the terminal `Status` of a dispatched request fails to encode,
`handle` hands the transport exactly the envelopes the collaborator already
sent — no status envelope and no further reporting attempt for that
request. -/
theorem handle_status_encode_failure_silent
    (enc : GrrStatus → Except EncodeError (List Nat)) (d : Demand)
    (dispatch : String → Action → Payload →
      Except Error Unit × Action × List GrrMessage)
    (e : EncodeError)
    (h : Status.tryInto enc
           (Status.mk d.header (dispatch d.action (Action.new d.header) d.payload).1) =
         Except.error e) :
    handle enc (Except.ok d) dispatch =
      (dispatch d.action (Action.new d.header) d.payload).2.2 := by
  rcases hd : dispatch d.action (Action.new d.header) d.payload with ⟨res, s2, sent⟩
  rw [hd] at h
  simp only at h
  simp [handle, hd, h]

/-- Witness for C9 at a concrete demand and a failing encoder. -/
theorem handle_status_encode_failure_silent_witness :
    handle encFail (Except.ok demand0) dispatch0 = [] :=
  handle_status_encode_failure_silent encFail demand0 dispatch0
    { message := "buffer full" } rfl

/-- C3: when the session id, the request id and the action name are all
present in the envelope, both decoders succeed and reproduce those fields
exactly; the argument bytes are passed through as they are, and an absent
payload parses to the default argument value rather than failing. -/
theorem decode_roundtrip_identity_fields (m : GrrMessage) (sid : String)
    (rid : Nat) (nm : String) {π ρ : Type} (T : RequestType π ρ)
    (h1 : m.session_id = some sid) (h2 : m.request_id = some rid)
    (h3 : m.name = some nm) :
    Demand.tryFrom m =
      Except.ok (Demand.mk nm (Header.mk sid rid) (Payload.mk m.args)) ∧
    Request.tryFrom m =
      Except.ok (Request.mk (RequestId.mk sid rid) nm m.args) ∧
    Payload.parse T (Payload.mk none) = Except.ok (T.from_proto T.dfault) := by
  refine ⟨?_, ?_, rfl⟩
  · simp [Demand.tryFrom, h1, h2, h3]
  · simp [Request.tryFrom, h1, h2, h3]

/-- Witness for C3 at the spec's concrete envelope. -/
theorem decode_roundtrip_identity_fields_witness :
    Demand.tryFrom envFull =
      Except.ok (Demand.mk ("ListDir") (Header.mk ("F:123") 7) (Payload.mk none)) ∧
    Request.tryFrom envFull =
      Except.ok (Request.mk (RequestId.mk ("F:123") 7) ("ListDir") none) ∧
    Payload.parse reqType0 (Payload.mk none) =
      Except.ok (reqType0.from_proto reqType0.dfault) :=
  decode_roundtrip_identity_fields envFull ("F:123") 7 ("ListDir") reqType0 rfl rfl rfl

/-- C4: an envelope missing its session id (respectively: having a session
id but missing its request id; having both but missing the action name)
makes both decoders fail with the error kind naming exactly that field, and
no `Demand`/`Request` value is produced. -/
theorem decode_missing_field_errors (m : GrrMessage) :
    (m.session_id = none →
      Demand.tryFrom m = Except.error (ParseError.MissingField ("session id")) ∧
      Request.tryFrom m =
        Except.error (ParseRequestError.mk ParseRequestErrorKind.NoSessionId)) ∧
    (m.session_id ≠ none → m.request_id = none →
      Demand.tryFrom m = Except.error (ParseError.MissingField ("request id")) ∧
      Request.tryFrom m =
        Except.error (ParseRequestError.mk ParseRequestErrorKind.NoRequestId)) ∧
    (m.session_id ≠ none → m.request_id ≠ none → m.name = none →
      Demand.tryFrom m = Except.error (ParseError.MissingField ("action name")) ∧
      Request.tryFrom m =
        Except.error (ParseRequestError.mk ParseRequestErrorKind.NoActionName)) := by
  refine ⟨fun h1 => ⟨?_, ?_⟩, fun h1 h2 => ?_, fun h1 h2 h3 => ?_⟩
  · simp [Demand.tryFrom, h1]
  · simp [Request.tryFrom, h1]
  · obtain ⟨sid, hs⟩ := Option.ne_none_iff_exists'.mp h1
    exact ⟨by simp [Demand.tryFrom, hs, h2], by simp [Request.tryFrom, hs, h2]⟩
  · obtain ⟨sid, hs⟩ := Option.ne_none_iff_exists'.mp h1
    obtain ⟨rid, hrq⟩ := Option.ne_none_iff_exists'.mp h2
    exact ⟨by simp [Demand.tryFrom, hs, hrq, h3],
           by simp [Request.tryFrom, hs, hrq, h3]⟩

/-- Witness for C4 at three concrete envelopes, each missing exactly one
identity field. -/
theorem decode_missing_field_errors_witness :
    Demand.tryFrom envNoSession =
      Except.error (ParseError.MissingField ("session id")) ∧
    Demand.tryFrom envNoRequest =
      Except.error (ParseError.MissingField ("request id")) ∧
    Demand.tryFrom envNoName =
      Except.error (ParseError.MissingField ("action name")) ∧
    Request.tryFrom envNoSession =
      Except.error (ParseRequestError.mk ParseRequestErrorKind.NoSessionId) ∧
    Request.tryFrom envNoRequest =
      Except.error (ParseRequestError.mk ParseRequestErrorKind.NoRequestId) ∧
    Request.tryFrom envNoName =
      Except.error (ParseRequestError.mk ParseRequestErrorKind.NoActionName) := by
  have hs := (decode_missing_field_errors envNoSession).1 rfl
  have hr := (decode_missing_field_errors envNoRequest).2.1 (by decide) rfl
  have hn := (decode_missing_field_errors envNoName).2.2 (by decide) (by decide) rfl
  exact ⟨hs.1, hr.1, hn.1, hs.2, hr.2, hn.2⟩

/-- C5: the status payload is `Ok` with no error message when the action
collaborator returned `Ok(())` and `GenericError` carrying the error's
`to_string()` when it returned an error; every encoded status envelope is
tagged `Status`, while every envelope produced through `Response` (that is,
by `reply` and `send`) is tagged `Message`. -/
theorem status_payload_and_type_tags (hdr : Header) (e : Error)
    (enc : GrrStatus → Except EncodeError (List Nat)) (st : Status)
    (msg : GrrMessage) (r : Response) (rmsg : GrrMessage) :
    Status.payload (Status.mk hdr (Except.ok ())) =
      GrrStatus.mk (some ReturnedStatus.Ok) none ∧
    Status.payload (Status.mk hdr (Except.error e)) =
      GrrStatus.mk (some ReturnedStatus.GenericError) (some e.toString) ∧
    (Status.tryInto enc st = Except.ok msg →
      msg.type = some GrrMessageType.Status) ∧
    (Response.tryInto r = Except.ok rmsg →
      rmsg.type = some GrrMessageType.Message) := by
  refine ⟨rfl, rfl, fun h => ?_, fun h => ?_⟩
  · simp only [Status.tryInto] at h
    cases henc : enc st.payload with
    | error er => rw [henc] at h; exact absurd h (by simp)
    | ok data => rw [henc] at h; injection h with h; subst h; rfl
  · simp only [Response.tryInto] at h
    cases henc : r.data.encodeProto with
    | error er => rw [henc] at h; exact absurd h (by simp)
    | ok data => rw [henc] at h; injection h with h; subst h; rfl

/-- Witness for C5 at concrete statuses, a concrete status envelope and a
concrete response envelope. -/
theorem status_payload_and_type_tags_witness :
    Status.payload (Status.mk hdr0 (Except.ok ())) =
      GrrStatus.mk (some ReturnedStatus.Ok) none ∧
    Status.payload (Status.mk hdr0 (Except.error (Error.mk ("boom")))) =
      GrrStatus.mk (some ReturnedStatus.GenericError)
        (some (Error.toString (Error.mk ("boom")))) ∧
    statusMsg0.type = some GrrMessageType.Status ∧
    msgResp0.type = some GrrMessageType.Message := by
  have h := status_payload_and_type_tags hdr0 (Error.mk ("boom")) encOkEmpty
    (Status.mk hdr0 (Except.ok ())) statusMsg0 resp0 msgResp0
  exact ⟨h.1, h.2.1, h.2.2.1 rfl, h.2.2.2 rfl⟩

/-- C8: `send` behaves identically on both session variants, and the wrapped
response — and hence every envelope a sink send puts on the transport —
carries the sink's id as its session id and no request or response id. -/
theorem sink_send_shape (s : Action) (sink : Sink) (r : ActionResponse) :
    Action.send s sink r = Adhoc.send sink r ∧
    (sink.wrap r).session_id = sink.id ∧
    (sink.wrap r).request_id = none ∧
    (sink.wrap r).response_id = none ∧
    (∀ msg ∈ (Adhoc.send sink r).2,
      msg.session_id = some sink.id ∧ msg.request_id = none ∧
        msg.response_id = none) := by
  refine ⟨rfl, rfl, rfl, rfl, fun msg hmsg => ?_⟩
  cases hr : r.encodeProto with
  | error er =>
    simp [Adhoc.send, Response.send, Response.tryInto, Sink.wrap, hr] at hmsg
  | ok data =>
    simp [Adhoc.send, Response.send, Response.tryInto, Sink.wrap, hr] at hmsg
    subst hmsg
    exact ⟨rfl, rfl, rfl⟩

/-- Witness for C8 at the `STARTUP` sink with a concrete session and
response. -/
theorem sink_send_shape_witness :
    Action.send (Action.new hdr0) STARTUP respOk0 = Adhoc.send STARTUP respOk0 ∧
    (STARTUP.wrap respOk0).session_id = STARTUP.id ∧
    msgSink0.session_id = some STARTUP.id ∧
    msgSink0.request_id = none ∧
    msgSink0.response_id = none := by
  have h := sink_send_shape (Action.new hdr0) STARTUP respOk0
  have hm := h.2.2.2.2 msgSink0 (List.mem_singleton.mpr rfl)
  exact ⟨h.1, h.2.1, hm.1, hm.2.1, hm.2.2⟩

/-- One successful `reply` step, written out: the counter advances by one
and the single sent envelope carries the bound ids, the current counter and
the `Message` tag. -/
theorem reply_ok_step (s : Action) (r : ActionResponse) (bs : List Nat)
    (hbs : r.encodeProto = Except.ok bs) :
    Action.reply s r =
      ((Except.ok (), Action.mk s.header (s.next_response_id + 1)),
       [GrrMessage.mk (some s.header.session_id) (some s.header.request_id)
          (some s.next_response_id) none (some GrrMessageType.Message)
          r.rdfName (some bs)]) := by
  simp [Action.reply, Response.send, Response.tryInto, hbs]

/-- From any starting state, when every response encodes successfully,
`replyAll` keeps the bound header, advances the counter by the number of
responses, sends one envelope per response, and the i-th envelope carries
the bound ids with response id equal to the starting counter plus i. -/
theorem replyAll_sent_spec (rs : List ActionResponse) (s : Action)
    (hok : ∀ r ∈ rs, ∃ bs, r.encodeProto = Except.ok bs) :
    (Action.replyAll s rs).1.header = s.header ∧
    (Action.replyAll s rs).1.next_response_id =
      s.next_response_id + rs.length ∧
    (Action.replyAll s rs).2.length = rs.length ∧
    ∀ i : Nat, i < rs.length →
      ∃ rdf : Option String, ∃ bs : List Nat,
        (Action.replyAll s rs).2.get? i =
          some (GrrMessage.mk (some s.header.session_id)
            (some s.header.request_id) (some (s.next_response_id + i)) none
            (some GrrMessageType.Message) rdf (some bs)) := by
  induction rs generalizing s with
  | nil =>
    refine ⟨rfl, by simp [Action.replyAll], by simp [Action.replyAll], ?_⟩
    intro i hi
    exact absurd hi (by simp)
  | cons r rest ih =>
    obtain ⟨bs, hbs⟩ := hok r (List.mem_cons_self r rest)
    have hok' : ∀ r' ∈ rest, ∃ bs', r'.encodeProto = Except.ok bs' :=
      fun r' hr' => hok r' (List.mem_cons_of_mem r hr')
    obtain ⟨ihh, ihn, ihl, ihg⟩ :=
      ih (Action.mk s.header (s.next_response_id + 1)) hok'
    have hunf : Action.replyAll s (r :: rest) =
        ((Action.replyAll (Action.mk s.header (s.next_response_id + 1)) rest).1,
          GrrMessage.mk (some s.header.session_id) (some s.header.request_id)
            (some s.next_response_id) none (some GrrMessageType.Message)
            r.rdfName (some bs)
          :: (Action.replyAll (Action.mk s.header (s.next_response_id + 1)) rest).2) := by
      simp [Action.replyAll, reply_ok_step s r bs hbs]
    refine ⟨?_, ?_, ?_, ?_⟩
    · rw [hunf]
      exact ihh
    · rw [hunf]
      dsimp only
      rw [ihn]
      simp only [List.length_cons]
      omega
    · rw [hunf]
      dsimp only
      simp [ihl]
    · intro i hi
      cases i with
      | zero =>
        refine ⟨r.rdfName, bs, ?_⟩
        rw [hunf]
        simp
      | succ j =>
        have hj : j < rest.length := by
          simp only [List.length_cons] at hi
          omega
        obtain ⟨rdf, bs', hget⟩ := ihg j hj
        refine ⟨rdf, bs', ?_⟩
        rw [hunf]
        dsimp only
        rw [List.get?_cons_succ, hget]
        have : s.next_response_id + 1 + j = s.next_response_id + (j + 1) := by omega
        rw [this]

/-- C2: for an `Action` session bound to header `(s, r)`, when `reply` is
called once per list element and every underlying send succeeds, exactly one
envelope is sent per call and the i-th envelope (counting from 0) carries
session id `s`, request id `r` and response id exactly `i` — strictly
increasing from 0 with no gaps. -/
theorem action_reply_sequential_ids (hdr : Header) (rs : List ActionResponse)
    (hok : ∀ r ∈ rs, ∃ bs, r.encodeProto = Except.ok bs) :
    (Action.replyAll (Action.new hdr) rs).2.length = rs.length ∧
    ∀ i : Nat, i < rs.length →
      ((Action.replyAll (Action.new hdr) rs).2.get? i).map
          (fun m => (m.session_id, m.request_id, m.response_id)) =
        some (some hdr.session_id, some hdr.request_id, some i) := by
  obtain ⟨-, -, hl, hg⟩ := replyAll_sent_spec rs (Action.new hdr) hok
  refine ⟨hl, fun i hi => ?_⟩
  obtain ⟨rdf, bs, hget⟩ := hg i hi
  rw [hget]
  simp [Action.new]

/-- Witness for C2: two concrete replies from a fresh session carry response
ids 0 and 1. -/
theorem action_reply_sequential_ids_witness :
    (∀ r ∈ [respOk0, respOk1], ∃ bs, r.encodeProto = Except.ok bs) ∧
    (Action.replyAll (Action.new hdr0) [respOk0, respOk1]).2.length = 2 ∧
    ((Action.replyAll (Action.new hdr0) [respOk0, respOk1]).2.get? 1).map
        (fun m => (m.session_id, m.request_id, m.response_id)) =
      some (some ("F:123"), some 7, some 1) := by
  have hok : ∀ r ∈ [respOk0, respOk1], ∃ bs, r.encodeProto = Except.ok bs := by
    intro r hr
    simp only [List.mem_cons, List.not_mem_nil, or_false] at hr
    rcases hr with rfl | rfl
    · exact ⟨[], rfl⟩
    · exact ⟨[1, 2], rfl⟩
  have h := action_reply_sequential_ids hdr0 [respOk0, respOk1] hok
  refine ⟨hok, ?_, ?_⟩
  · simpa using h.1
  · simpa [hdr0] using h.2 1 (by norm_num)

end Rrg
